import Mathlib

/-!
Verification of the yt-hdhr HDHomeRun-emulation server (src/youtube-live.py)
against its natural-language specification.  Python strings are modelled as
`List Char`; the handlers, the stream-resolution chain, the byte-relay cleanup
logic, the lineup construction, the device-id derivation and the SSDP listener
step are translated as executable Lean functions, and the spec's claims are
proved or refuted about them.
-/

namespace YtHdhr

/-- Python strings are modelled as lists of characters. -/
abbrev Str := List Char

/-- `startsW needle hay`: `hay` begins with `needle` (cf. str startswith). -/
def startsW : Str → Str → Bool
  | [], _ => true
  | _ :: _, [] => false
  | a :: as, b :: bs => if a = b then startsW as bs else false

/-- `hasSub hay needle`: substring containment, modelling Python `needle in hay`. -/
def hasSub : Str → Str → Bool
  | [], needle => startsW needle []
  | a :: t, needle => startsW needle (a :: t) || hasSub t needle

/-- `hasChar s c`: the character `c` occurs in `s`. -/
def hasChar : Str → Char → Bool
  | [], _ => false
  | a :: t, c => if a = c then true else hasChar t c

/-- ASCII lower-casing of one character, modelling `str.lower` on the ASCII range. -/
def lowerC (c : Char) : Char :=
  if 'A' ≤ c ∧ c ≤ 'Z' then Char.ofNat (c.toNat + 32) else c

/-- `str.lower` on the ASCII range. -/
def lowerStr (s : Str) : Str := s.map lowerC

/-- Python whitespace test for `str.strip`. -/
def isPySpace (c : Char) : Bool :=
  c = ' ' || c = '\t' || c = '\n' || c = '\r' || c = Char.ofNat 11 || c = Char.ofNat 12

/-- Model of Python `str.strip()`: drop leading and trailing whitespace. -/
def pyStrip (s : Str) : Str :=
  ((s.dropWhile isPySpace).reverse.dropWhile isPySpace).reverse

/-- Hex-digit test for percent-escape decoding. -/
def isHexDig (c : Char) : Bool :=
  ('0' ≤ c && c ≤ '9') || ('a' ≤ c && c ≤ 'f') || ('A' ≤ c && c ≤ 'F')

/-- Numeric value of a hex digit. -/
def hexVal (c : Char) : Nat :=
  if '0' ≤ c && c ≤ '9' then c.toNat - 48
  else if 'a' ≤ c && c ≤ 'f' then c.toNat - 87
  else c.toNat - 55

/-- Model of `urllib.parse.unquote` on the ASCII range: decode `%XX` escapes,
leaving invalid escapes untouched (as `unquote` does). -/
def percentDecode : Str → Str
  | [] => []
  | c :: h1 :: h2 :: t2 =>
    if c = '%' && isHexDig h1 && isHexDig h2 then
      Char.ofNat (16 * hexVal h1 + hexVal h2) :: percentDecode t2
    else c :: percentDecode (h1 :: h2 :: t2)
  | c :: t => c :: percentDecode t

/-- Decimal rendering of a natural number, modelling Python `str(idx)`. -/
def natStr (n : Nat) : Str := (Nat.repr n).data

/-! ### Device identity (`_generate_device_id`, `DEVICE_ID`) -/

/-- One uppercase hexadecimal digit (0-9, A-F). -/
def toUpperHexDigit (n : Nat) : Char :=
  if n < 10 then Char.ofNat (48 + n) else Char.ofNat (55 + n)

/-- Hexadecimal digits of `n`, least significant first (empty for 0); the
fuel argument (always called with `n` itself, which bounds the digit count)
keeps the recursion structural. -/
def hexRevF : Nat → Nat → List Char
  | _, 0 => []
  | 0, _ + 1 => []
  | fuel + 1, n + 1 => toUpperHexDigit ((n + 1) % 16) :: hexRevF fuel ((n + 1) / 16)

/-- Model of Python `format(n, '08X')`: uppercase hex, zero-padded to width 8. -/
def format08X (n : Nat) : Str :=
  List.replicate (8 - (hexRevF n n).reverse.length) '0' ++ (hexRevF n n).reverse

/-- `_generate_device_id`: mask the MAC address to its low 32 bits and format
as 8 uppercase hex digits (`format(mac & 0xFFFFFFFF, '08X')`). -/
def generate_device_id (mac : Nat) : Str := format08X (mac % 4294967296)

/-- `DEVICE_ID = HDHR_DEVICE_ID or _generate_device_id()`: Python `or`, so a
missing or empty override falls back to the generated id. -/
def device_id_of (override : Option Str) (mac : Nat) : Str :=
  match override with
  | some o => if o = [] then generate_device_id mac else o
  | none => generate_device_id mac

/-- The character set of uppercase hexadecimal digits. -/
def isUpperHexDigitChar (c : Char) : Bool := hasChar ("0123456789ABCDEF".data) c

/-! ### JSON values, as far as the `/stream` handler inspects them -/

/-- A JSON value as inspected by the handler (`json.loads` result). -/
inductive JVal
  | jnull
  | jbool (b : Bool)
  | jnum (n : Int)
  | jstr (s : Str)
  | jarr (vs : List JVal)
  | jobj (fields : List (Str × JVal))

/-- Association lookup in a JSON object field list (first match wins). -/
def lookupFields : List (Str × JVal) → Str → Option JVal
  | [], _ => none
  | (k2, v) :: t, k => if k2 = k then some v else lookupFields t k

/-- Python truthiness (`not v`) of a JSON value. -/
def jfalsy : JVal → Bool
  | JVal.jnull => true
  | JVal.jbool b => !b
  | JVal.jnum n => n = 0
  | JVal.jstr s => s.isEmpty
  | JVal.jarr vs => vs.isEmpty
  | JVal.jobj fields => fields.isEmpty

/-! ### The `/stream` handler (resolution chain and subprocess trace) -/

/-- Observable behaviour of one external tool invocation: its exit code,
the result of `json.loads` on its stdout (`Except.error msg` when parsing
raises `ValueError` with that message), the decoded stdout text, and stderr. -/
structure ToolRun where
  exitcode : Int
  stdoutJson : Except Str JVal
  stdoutText : Str
  stderr : Str

/-- The environment of one `/stream` request: the behaviour of the initial
streamlink probe, of the yt-dlp fallback, and of the streamlink re-probe. -/
structure StreamWorld where
  probe1 : ToolRun
  fallback : ToolRun
  probe2 : ToolRun

/-- A spawned child process, by command shape and target URL. -/
inductive Spawn
  | probe (url : Str)
  | fallbackX (url : Str)
  | streamer (url : Str)
deriving DecidableEq

/-- Python exceptions the handler can raise. -/
inductive PyExn
  | typeError (msg : Str)
  | attributeError (msg : Str)
  | keyError (k : Str)
  | jsonDecodeError (msg : Str)
deriving DecidableEq

/-- The handler's HTTP outcome: a JSON body with status, a 200 streaming
response, or an exception escaping the handler (Flask's generic 500 page). -/
inductive HttpResult
  | jsonResp (status : Nat) (body : List (Str × Str))
  | streamResp (resolvedUrl : Str)
  | flaskError (e : PyExn)
deriving DecidableEq

/-- HTTP status of a handler outcome (an uncaught exception is Flask's 500). -/
def statusOf : HttpResult → Nat
  | HttpResult.jsonResp s _ => s
  | HttpResult.streamResp _ => 200
  | HttpResult.flaskError _ => 500

def errKey : Str := "error".data

def detailsKey : Str := "details".data

def streamsKey : Str := "streams".data

def bestKey : Str := "best".data

/-- A single-quote character, for building Python exception messages. -/
def q39 : Str := [Char.ofNat 39]

/-- `str(e)` for the exceptions the handler catches (ASCII-level model). -/
def exnMsg : PyExn → Str
  | PyExn.typeError m => m
  | PyExn.attributeError m => m
  | PyExn.keyError k => Char.ofNat 39 :: k ++ [Char.ofNat 39]
  | PyExn.jsonDecodeError msg => msg

/-- Python type name of a JSON value. -/
def pyTypeName : JVal → Str
  | JVal.jnull => "NoneType".data
  | JVal.jbool _ => "bool".data
  | JVal.jnum _ => "int".data
  | JVal.jstr _ => "str".data
  | JVal.jarr _ => "list".data
  | JVal.jobj _ => "dict".data

/-- `TypeError: argument of type 'X' is not iterable`. -/
def notIterableTypeMsg (ty : Str) : Str :=
  ("argument of type ".data) ++ q39 ++ ty ++ q39 ++ (" is not iterable".data)

/-- The `TypeError` raised by `v['streams']` when `v` is not a dict. -/
def subscriptErrMsg : JVal → Str
  | JVal.jarr _ => "list indices must be integers or slices, not str".data
  | JVal.jstr _ => "string indices must be integers".data
  | v => q39 ++ pyTypeName v ++ q39 ++ (" object is not subscriptable".data)

/-- `AttributeError: 'X' object has no attribute 'get'`. -/
def noGetAttrMsg (v : JVal) : Str :=
  q39 ++ pyTypeName v ++ q39 ++ (" object has no attribute ".data)
    ++ q39 ++ ("get".data) ++ q39

/-- Membership of the string `k` among the elements of a JSON array
(Python `==` against each element: only equal strings match). -/
def jarrHasStr (k : Str) : List JVal → Bool
  | [] => false
  | JVal.jstr s :: t => if s = k then true else jarrHasStr k t
  | _ :: t => jarrHasStr k t

/-- Python `k in v` on a JSON value: key membership on a dict, element
membership on a list, substring test on a string, and `TypeError` on
null/bool/number (they are not iterable). -/
def pyContains (v : JVal) (k : Str) : Except PyExn Bool :=
  match v with
  | JVal.jobj fields => Except.ok (lookupFields fields k).isSome
  | JVal.jarr vs => Except.ok (jarrHasStr k vs)
  | JVal.jstr s => Except.ok (hasSub s k)
  | v => Except.error (PyExn.typeError (notIterableTypeMsg (pyTypeName v)))

/-- Python `v[k]` with a string key: dict lookup (raising `KeyError` when the
key is absent), `TypeError` on every other value. -/
def pySubscript (v : JVal) (k : Str) : Except PyExn JVal :=
  match v with
  | JVal.jobj fields =>
    match lookupFields fields k with
    | some w => Except.ok w
    | none => Except.error (PyExn.keyError k)
  | v => Except.error (PyExn.typeError (subscriptErrMsg v))

/-- Python `v.get(k)`: dict lookup returning `None` when absent,
`AttributeError` on every non-dict value. -/
def pyGetAttrGet (v : JVal) (k : Str) : Except PyExn (Option JVal) :=
  match v with
  | JVal.jobj fields => Except.ok (lookupFields fields k)
  | v => Except.error (PyExn.attributeError (noGetAttrMsg v))

/-- `{'error': 'Failed to retrieve stream info', 'details': stderr}, 500`. -/
def probeFailResp (d : Str) : HttpResult :=
  HttpResult.jsonResp 500 [(errKey, ("Failed to retrieve stream info").data), (detailsKey, d)]

/-- `{'error': 'No valid streams found'}, 404`. -/
def noStreamsResp : HttpResult :=
  HttpResult.jsonResp 404 [(errKey, ("No valid streams found").data)]

/-- The condition of line 454,
`'streams' not in stream_info or not stream_info['streams']`, with Python's
short-circuit and exception semantics: the membership test itself can raise
(non-iterable `stream_info`), and when membership holds the subscription of
the second operand can raise (list/string `stream_info`). -/
def fallbackTrigger (si : JVal) : Except PyExn Bool :=
  match pyContains si streamsKey with
  | Except.error e => Except.error e
  | Except.ok false => Except.ok true
  | Except.ok true =>
    match pySubscript si streamsKey with
    | Except.error e => Except.error e
    | Except.ok v => Except.ok (jfalsy v)

/-- Line 470, `stream_info['streams'].get('best')`, with Python's exception
semantics: `KeyError` when the dict lacks the key, `TypeError` when
`stream_info` is not a dict, `AttributeError` when the streams value is not
a dict. -/
def getBest (si : JVal) : Except PyExn (Option JVal) :=
  match pySubscript si streamsKey with
  | Except.error e => Except.error e
  | Except.ok sv => pyGetAttrGet sv bestKey

/-- `'youtube.com' in url.lower() or 'youtu.be' in url.lower()`. -/
def isYtUrl (u : Str) : Bool :=
  hasSub (lowerStr u) ("youtube.com".data) || hasSub (lowerStr u) ("youtu.be".data)

/-- `stream_info['streams'].get('best'); if not best_quality: 404` and the
final streamlink spawn, applied to a parsed probe result. -/
def finishResp (si : JVal) (url : Str) (tr : List Spawn) :
    Except PyExn HttpResult × List Spawn :=
  match getBest si with
  | Except.error e => (Except.error e, tr)
  | Except.ok none => (Except.ok noStreamsResp, tr)
  | Except.ok (some bv) =>
    if jfalsy bv then (Except.ok noStreamsResp, tr)
    else (Except.ok (HttpResult.streamResp url), tr ++ [Spawn.streamer url])

/-- The body of the `try:` block of the `/stream` handler: probe, optional
yt-dlp fallback and re-probe, variant selection, streamer spawn.  Returns the
outcome (or the escaping exception) together with the ordered subprocess
trace. -/
def stream_try (w : StreamWorld) (url : Str) : Except PyExn HttpResult × List Spawn :=
  if w.probe1.exitcode ≠ 0 then
    (Except.ok (probeFailResp w.probe1.stderr), [Spawn.probe url])
  else
    match w.probe1.stdoutJson with
    | Except.error m => (Except.error (PyExn.jsonDecodeError m), [Spawn.probe url])
    | Except.ok si =>
      match fallbackTrigger si with
      | Except.error e => (Except.error e, [Spawn.probe url])
      | Except.ok trig =>
      if trig && isYtUrl url then
        if w.fallback.exitcode ≠ 0 then
          (Except.ok noStreamsResp, [Spawn.probe url, Spawn.fallbackX url])
        else
          match w.probe2.stdoutJson with
          | Except.error m =>
            (Except.error (PyExn.jsonDecodeError m),
             [Spawn.probe url, Spawn.fallbackX url,
              Spawn.probe (pyStrip w.fallback.stdoutText)])
          | Except.ok si2 =>
            finishResp si2 (pyStrip w.fallback.stdoutText)
              [Spawn.probe url, Spawn.fallbackX url,
               Spawn.probe (pyStrip w.fallback.stdoutText)]
      else
        finishResp si url [Spawn.probe url]

/-- The `/stream` handler.  `urlArg` is `request.args.get('url')`; the code
calls `unquote` on it before checking it, so a missing parameter raises
`TypeError` outside the `try:` block; exceptions inside the `try:` become a
JSON 500 `{'error': str(e)}`. -/
def stream_handler (w : StreamWorld) (urlArg : Option Str) : HttpResult × List Spawn :=
  match urlArg with
  | none =>
    (HttpResult.flaskError (PyExn.typeError (notIterableTypeMsg ("NoneType".data))), [])
  | some raw =>
    if percentDecode raw = [] then
      (HttpResult.jsonResp 400 [(errKey, ("URL parameter is required").data)], [])
    else
      match stream_try w (percentDecode raw) with
      | (Except.ok r, tr) => (r, tr)
      | (Except.error e, tr) => (HttpResult.jsonResp 500 [(errKey, exnMsg e)], tr)

/-- Recognizer of yt-dlp fallback spawns in a subprocess trace. -/
def isFallbackSpawn : Spawn → Bool
  | Spawn.fallbackX _ => true
  | _ => false

/-! ### Byte-relay cleanup (the `generate` generator and `call_on_close`) -/

/-- Termination paths of the relay loop: upstream EOF (`read` returned no
data), client disconnect (`GeneratorExit`), unhandled read error
(`except Exception`). -/
inductive TermPath
  | eof
  | clientDisconnect
  | readError
deriving DecidableEq

/-- Cleanup-relevant actions on the helper process and its handles. -/
inductive CleanupAct
  | terminate
  | waitGrace (secs : Nat)
  | kill
  | closeStdout
  | closeStderr
deriving DecidableEq

/-- `process.terminate(); wait(timeout=5) / kill(); finally close handles` —
the shared block of the `GeneratorExit` handler and of `cleanup`.
`exitsWithinGrace` records whether `wait(timeout=5)` returned before the
grace period elapsed. -/
def terminateWaitKillClose (exitsWithinGrace : Bool) : List CleanupAct :=
  [CleanupAct.terminate, CleanupAct.waitGrace 5]
    ++ (if exitsWithinGrace then [] else [CleanupAct.kill])
    ++ [CleanupAct.closeStdout, CleanupAct.closeStderr]

/-- Actions the generator itself performs on each termination path
(lines 487-509 of the source). -/
def generate_cleanup (p : TermPath) (exitsWithinGrace : Bool) : List CleanupAct :=
  match p with
  | TermPath.eof => []
  | TermPath.clientDisconnect => terminateWaitKillClose exitsWithinGrace
  | TermPath.readError => [CleanupAct.terminate, CleanupAct.closeStdout, CleanupAct.closeStderr]

/-- The `@response.call_on_close` `cleanup` function (lines 513-524): runs the
terminate/wait/kill/close block only when `process.poll() is None`, i.e. when
the helper is still alive as the response closes. -/
def call_on_close_cleanup (aliveAtClose exitsWithinGrace : Bool) : List CleanupAct :=
  if aliveAtClose then terminateWaitKillClose exitsWithinGrace else []

/-- All cleanup actions a stream session performs on a given termination path:
first whatever the generator does, then the response-close handler. -/
def session_cleanup (p : TermPath) (exitsWithinGrace aliveAtClose : Bool) : List CleanupAct :=
  generate_cleanup p exitsWithinGrace ++ call_on_close_cleanup aliveAtClose exitsWithinGrace

/-- The spec's cleanup contract: a terminate signal, a bounded 5-second wait,
a force-kill if the process did not exit within the grace period, and closing
both stdout and stderr. -/
def full_cleanup_contract (acts : List CleanupAct) (exitsWithinGrace : Bool) : Bool :=
  acts.contains CleanupAct.terminate
    && acts.contains (CleanupAct.waitGrace 5)
    && (exitsWithinGrace || acts.contains CleanupAct.kill)
    && acts.contains CleanupAct.closeStdout
    && acts.contains CleanupAct.closeStderr

/-! ### Channel catalog (`get_channels_from_xml`) and lineup (`hdhr_lineup`) -/

/-- One `<channel>` element of `youtubelinks.xml`, as raw field texts:
`none` models a missing child element, `some s` an element with text `s`
(the code treats `None` text as the empty string, which `some ""` covers). -/
structure RawChannel where
  channel_name : Option Str
  tvg_id : Option Str
  tvg_name : Option Str
  tvg_logo : Option Str
  group_title : Option Str
  channel_number : Option Str
  youtube_url : Option Str
deriving DecidableEq

/-- `(el.text or '').strip() if el is not None else default`. -/
def fieldOr (o : Option Str) (dflt : Str) : Str :=
  match o with
  | some s => pyStrip s
  | none => dflt

/-- A parsed channel record, as `get_channels_from_xml` builds it. -/
structure Channel where
  name : Str
  tvg_id : Str
  tvg_name : Str
  tvg_logo : Str
  group_title : Str
  channel_number : Str
  youtube_url : Str
deriving DecidableEq

/-- Field extraction with defaults for the channel at 1-based index `idx`
(the `channel_number` default is `str(idx)`; `tvg_name` defaults to the
computed name). -/
def parseChannel (idx : Nat) (ch : RawChannel) : Channel :=
  let name := fieldOr ch.channel_name ("Unknown".data)
  { name := name
    tvg_id := fieldOr ch.tvg_id []
    tvg_name := fieldOr ch.tvg_name name
    tvg_logo := fieldOr ch.tvg_logo []
    group_title := fieldOr ch.group_title ("General".data)
    channel_number := fieldOr ch.channel_number (natStr idx)
    youtube_url := fieldOr ch.youtube_url [] }

/-- The enumeration loop of `get_channels_from_xml`: parse each element,
keeping only channels whose stripped `youtube-url` is non-empty. -/
def channelsLoop : Nat → List RawChannel → List Channel
  | _, [] => []
  | idx, ch :: t =>
    let c := parseChannel idx ch
    if c.youtube_url = [] then channelsLoop (idx + 1) t
    else c :: channelsLoop (idx + 1) t

/-- `get_channels_from_xml`, starting the enumeration at 1. -/
def get_channels_from_xml (raw : List RawChannel) : List Channel :=
  channelsLoop 1 raw

/-- One `/lineup.json` entry: `GuideNumber`, `GuideName`, `URL` and the
optional `Station` key. -/
structure LineupEntry where
  guideNumber : Str
  guideName : Str
  url : Str
  station : Option Str
deriving DecidableEq

/-- The lineup entry the handler builds for one channel: the stream URL embeds
the source URL verbatim (no percent-encoding), and `Station` is added exactly
when `tvg_logo` is truthy, with the channel number as its value. -/
def entryOf (base : Str) (ch : Channel) : LineupEntry :=
  { guideNumber := ch.channel_number
    guideName := ch.name
    url := base ++ ("/stream?url=".data) ++ ch.youtube_url
    station := if ch.tvg_logo = [] then none else some ch.channel_number }

/-- The `/lineup.json` handler over a given base URL and catalog. -/
def hdhr_lineup (base : Str) (raw : List RawChannel) : List LineupEntry :=
  (get_channels_from_xml raw).map (entryOf base)

/-! ### Query-parameter extraction (the spec's round-trip check)

Modelled from the spec: the round-trip property of §8 speaks of "extracting
the `url` query parameter from the constructed stream URL" and
percent-decoding it; the extraction itself is not code of the repository, so
it is defined here following standard query-string parsing: everything after
the first `?` is split on `&`, each piece is split at its first `=`, and the
value of the `url` key is percent-decoded. -/

/-- The part of a URL after its first `?`, if any. -/
def afterQmark : Str → Option Str
  | [] => none
  | c :: t => if c = '?' then some t else afterQmark t

/-- Split a query string on `&`. -/
def splitAmp : Str → List Str
  | [] => [[]]
  | c :: t =>
    if c = '&' then [] :: splitAmp t
    else
      match splitAmp t with
      | [] => [[c]]
      | h :: r => (c :: h) :: r

/-- Split one `key=value` piece at its first `=`. -/
def keyValOf : Str → Str × Str
  | [] => ([], [])
  | c :: t =>
    if c = '=' then ([], t)
    else
      let kv := keyValOf t
      (c :: kv.1, kv.2)

/-- Value of the first parameter named `k` among the pieces. -/
def lookupParam : List Str → Str → Option Str
  | [], _ => none
  | p :: t, k =>
    let kv := keyValOf p
    if kv.1 = k then some kv.2 else lookupParam t k

/-- Modelled from the spec: extract the `url` query parameter of a URL and
percent-decode it. -/
def extractUrlParam (u : Str) : Option Str :=
  match afterQmark u with
  | none => none
  | some q => (lookupParam (splitAmp q) ("url".data)).map percentDecode

/-! ### Device descriptor and lineup-status endpoints -/

/-- The configuration the HDHomeRun endpoints read (module globals of the
source, fixed at startup). -/
structure HdhrConfig where
  host_ip : Str
  server_port : Str
  device_id : Str
  friendly_name : Str
  tuner_count : Nat
  manufacturer : Str
  model : Str
  firmware : Str
  firmware_version : Str
deriving DecidableEq

/-- A JSON-serializable value of the descriptor documents. -/
inductive SVal
  | s (v : Str)
  | n (v : Nat)
  | arr (vs : List Str)

/-- Comma-space interleaving of serialized pieces. -/
def joinComma : List Str → Str
  | [] => []
  | [x] => x
  | x :: y :: t => x ++ (", ".data) ++ joinComma (y :: t)

def quoteStr (v : Str) : Str := '"' :: v ++ ['"']

def svalStr : SVal → Str
  | SVal.s v => quoteStr v
  | SVal.n v => natStr v
  | SVal.arr vs => '[' :: joinComma (vs.map quoteStr) ++ [']']

/-- Serialize an ordered field list as a JSON object text (the byte form of
the `jsonify` body, insertion-ordered). -/
def serializeObj (fs : List (Str × SVal)) : Str :=
  Char.ofNat 123 :: joinComma (fs.map fun p => quoteStr p.1 ++ (": ".data) ++ svalStr p.2)
    ++ [Char.ofNat 125]

/-- `base_url = f'http://{HOST_IP}:{SERVER_PORT}'`. -/
def baseUrlOf (cfg : HdhrConfig) : Str :=
  ("http://".data) ++ cfg.host_ip ++ (":".data) ++ cfg.server_port

/-- The `/discover.json` body, fields in source order (`DeviceAuth` repeats
the device id). -/
def hdhr_discover (cfg : HdhrConfig) : Str :=
  serializeObj
    [ (("FriendlyName").data, SVal.s cfg.friendly_name)
    , (("Manufacturer").data, SVal.s cfg.manufacturer)
    , (("ModelNumber").data, SVal.s cfg.model)
    , (("FirmwareName").data, SVal.s cfg.firmware)
    , (("FirmwareVersion").data, SVal.s cfg.firmware_version)
    , (("DeviceID").data, SVal.s cfg.device_id)
    , (("DeviceAuth").data, SVal.s cfg.device_id)
    , (("BaseURL").data, SVal.s (baseUrlOf cfg))
    , (("LineupURL").data, SVal.s (baseUrlOf cfg ++ ("/lineup.json").data))
    , (("TunerCount").data, SVal.n cfg.tuner_count) ]

/-- The constant `/lineup_status.json` body. -/
def hdhr_lineup_status : Str :=
  serializeObj
    [ (("ScanInProgress").data, SVal.n 0)
    , (("ScanPossible").data, SVal.n 0)
    , (("Source").data, SVal.s ("Cable".data))
    , (("SourceList").data, SVal.arr [("Cable".data)]) ]

/-- The state a request handler can observe: the startup configuration and
the current catalog document (re-read on each lineup request).  The
descriptor endpoints read only the configuration. -/
structure ServerState where
  cfg : HdhrConfig
  catalog : List RawChannel
deriving DecidableEq

/-- One `/discover.json` call against the current server state. -/
def discoverCall (st : ServerState) : Str := hdhr_discover st.cfg

/-- One `/lineup_status.json` call against the current server state. -/
def lineupStatusCall (_ : ServerState) : Str := hdhr_lineup_status

/-! ### SSDP discovery listener -/

def ssdpDeviceType : Str := "urn:schemas-upnp-org:device:MediaServer:1".data

def crlf : Str := "\r\n".data

/-- The `LOCATION` header line of the M-SEARCH response. -/
def locationLine (cfg : HdhrConfig) : Str :=
  ("LOCATION: http://".data) ++ cfg.host_ip ++ (":".data) ++ cfg.server_port
    ++ ("/device.xml".data) ++ crlf

/-- The `USN` header line of the M-SEARCH response. -/
def usnLine (cfg : HdhrConfig) : Str :=
  ("USN: uuid:".data) ++ cfg.device_id ++ ("::".data) ++ ssdpDeviceType ++ crlf

/-- The full `ssdp_response` datagram payload (the f-string of lines 56-65,
as the concatenation of its segments). -/
def ssdp_response_msg (cfg : HdhrConfig) : Str :=
  ("HTTP/1.1 200 OK\r\nCACHE-CONTROL: max-age=1800\r\nEXT:\r\n".data)
    ++ (locationLine cfg
    ++ (("SERVER: youtube-to-m3u/1.0 UPnP/1.0 HDHomeRun/1.0\r\nST: ".data)
          ++ ssdpDeviceType ++ crlf
    ++ (usnLine cfg
    ++ crlf)))

/-- A UDP peer address. -/
structure UdpAddr where
  ip : Str
  port : Nat
deriving DecidableEq

/-- One iteration of the `ssdp_listener` loop on a received datagram: the
list of datagrams sent in response (destination, payload).  A reply is sent
exactly when the datagram contains both `M-SEARCH` and the device-type
string; anything else is ignored. -/
def ssdp_listener_step (cfg : HdhrConfig) (data : Str) (addr : UdpAddr) :
    List (UdpAddr × Str) :=
  if hasSub data ("M-SEARCH".data) && hasSub data ssdpDeviceType then
    [(addr, ssdp_response_msg cfg)]
  else []

/-! ### Concrete instances used to evaluate the model -/

/-- A tool run that was never consulted. -/
def trIdle : ToolRun := ⟨0, Except.error [], [], []⟩

/-- An arbitrary environment (used where the environment is irrelevant). -/
def wDefault : StreamWorld := ⟨trIdle, trIdle, trIdle⟩

/-- Probe output `{"streams": {}}`: present but empty variant set. -/
def siEmptyStreams : JVal := JVal.jobj [(streamsKey, JVal.jobj [])]

/-- Environment for the fallback re-probe: first probe succeeds with zero
variants, yt-dlp succeeds, but the re-probe exits non-zero with empty stdout
(so `json.loads` raises). -/
def cw3 : StreamWorld :=
  { probe1 := ⟨0, Except.ok siEmptyStreams, [], []⟩
  , fallback := ⟨0, Except.error [], ("https://cdn.example/live.m3u8\n".data), []⟩
  , probe2 := ⟨1, Except.error (("Expecting value: line 1 column 1 (char 0)").data),
               [], ("reprobe stderr text".data)⟩ }

def u3 : Str := "https://www.youtube.com/watch?v=abc".data

/-- Environment where only the first probe runs and it exits non-zero. -/
def w3w : StreamWorld := ⟨⟨1, Except.error [], [], ("probe broke".data)⟩, trIdle, trIdle⟩

def u3w : Str := "https://example.com/a".data

/-- Environment for a complete successful fallback chain. -/
def w4 : StreamWorld :=
  { probe1 := ⟨0, Except.ok siEmptyStreams, [], []⟩
  , fallback := ⟨0, Except.error [], (" https://cdn.example/out.m3u8\n".data), []⟩
  , probe2 := ⟨0, Except.ok (JVal.jobj [(streamsKey,
                JVal.jobj [(bestKey, JVal.jstr (("https://cdn.example/out.m3u8").data))])]),
               [], []⟩ }

def u4 : Str := "https://www.youtube.com/watch?v=zzz".data

/-- Environment where the probe output has no `streams` key at all (`{}`). -/
def cw5 : StreamWorld := ⟨⟨0, Except.ok (JVal.jobj []), [], []⟩, trIdle, trIdle⟩

def u5 : Str := "https://example.com/live".data

/-- Environment where the probe reports `{"streams": {}}`. -/
def w5w : StreamWorld := ⟨⟨0, Except.ok siEmptyStreams, [], []⟩, trIdle, trIdle⟩

/-- A catalog entry whose source URL contains `&`. -/
def rc6 : RawChannel :=
  { channel_name := some ("News".data)
  , tvg_id := some ("news.ex".data)
  , tvg_name := none
  , tvg_logo := some ("http://logo.example/n.png".data)
  , group_title := none
  , channel_number := some ("1".data)
  , youtube_url := some ("https://www.youtube.com/watch?v=abc&t=5".data) }

def base6 : Str := "http://192.168.1.123:6095".data

/-- A catalog entry whose source URL contains neither `&` nor `%`. -/
def rc6w : RawChannel :=
  { channel_name := some ("Live".data)
  , tvg_id := some ("live.ex".data)
  , tvg_name := none
  , tvg_logo := some ("http://logo.example/l.png".data)
  , group_title := none
  , channel_number := some ("7".data)
  , youtube_url := some ("https://www.youtube.com/watch?v=live".data) }

/-- The parsed form of `rc6w` at index 1. -/
def ch6w : Channel := parseChannel 1 rc6w

/-- A concrete configuration (the source's documented defaults). -/
def cfg0 : HdhrConfig :=
  { host_ip := "192.168.1.123".data
  , server_port := "6095".data
  , device_id := "12AB34CD".data
  , friendly_name := "youtube-to-m3u".data
  , tuner_count := 2
  , manufacturer := "Silicondust".data
  , model := "HDTC-2US".data
  , firmware := "hdhomerun3_atsc".data
  , firmware_version := "20200101".data }

/-- Two server states sharing `cfg0` but holding different catalogs. -/
def st7a : ServerState := ⟨cfg0, []⟩

def st7b : ServerState := ⟨cfg0, [rc6w]⟩

/-! ### Helper lemmas -/

theorem startsW_self (n s : Str) : startsW n (n ++ s) = true := by
  induction n with
  | nil => rfl
  | cons a as ih => simp [startsW, ih]

theorem startsW_refl (n : Str) : startsW n n = true := by
  have h := startsW_self n []
  simpa using h

theorem hasSub_here (h n : Str) (hs : startsW n h = true) : hasSub h n = true := by
  cases h with
  | nil => simpa [hasSub] using hs
  | cons a t => simp [hasSub, hs]

theorem hasSub_cons (c : Char) (t n : Str) (hs : hasSub t n = true) :
    hasSub (c :: t) n = true := by
  simp [hasSub, hs]

theorem hasSub_append (a b n : Str) (hs : hasSub b n = true) :
    hasSub (a ++ b) n = true := by
  induction a with
  | nil => simpa using hs
  | cons c t ih => exact hasSub_cons c _ n ih

theorem hasSub_at_start (n s : Str) : hasSub (n ++ s) n = true :=
  hasSub_here _ _ (startsW_self n s)

theorem hasChar_append (a b : Str) (c : Char) :
    hasChar (a ++ b) c = (hasChar a c || hasChar b c) := by
  induction a with
  | nil => simp [hasChar]
  | cons d t ih =>
    by_cases hd : d = c
    · simp [hasChar, hd]
    · simp [hasChar, hd, ih]

theorem percentDecode_no_pct : ∀ s : Str, hasChar s '%' = false → percentDecode s = s := by
  intro s
  induction s with
  | nil => intro _; rfl
  | cons c t ih =>
    intro h
    simp only [hasChar] at h
    by_cases hc : c = '%'
    · rw [if_pos hc] at h; exact absurd h (by simp)
    · rw [if_neg hc] at h
      cases t with
      | nil => rfl
      | cons d t1 =>
        cases t1 with
        | nil => rfl
        | cons e t2 =>
          have : percentDecode (c :: d :: e :: t2) = c :: percentDecode (d :: e :: t2) := by
            simp [percentDecode, hc]
          rw [this, ih h]

theorem afterQmark_append_noq (a b : Str) (h : hasChar a '?' = false) :
    afterQmark (a ++ b) = afterQmark b := by
  induction a with
  | nil => rfl
  | cons c t ih =>
    simp only [hasChar] at h
    by_cases hc : c = '?'
    · rw [if_pos hc] at h; exact absurd h (by simp)
    · rw [if_neg hc] at h
      simp [afterQmark, hc, ih h]

theorem afterQmark_qmark (t : Str) : afterQmark ('?' :: t) = some t := by
  simp [afterQmark]

theorem splitAmp_no_amp : ∀ s : Str, hasChar s '&' = false → splitAmp s = [s] := by
  intro s
  induction s with
  | nil => intro _; rfl
  | cons c t ih =>
    intro h
    simp only [hasChar] at h
    by_cases hc : c = '&'
    · rw [if_pos hc] at h; exact absurd h (by simp)
    · rw [if_neg hc] at h
      simp [splitAmp, hc, ih h]

theorem keyValOf_url (yu : Str) : keyValOf (("url=".data) ++ yu) = (("url".data), yu) := by
  simp [keyValOf]

theorem extract_roundtrip (base yu : Str) (hb : hasChar base '?' = false)
    (ha : hasChar yu '&' = false) (hp : hasChar yu '%' = false) :
    extractUrlParam (base ++ ("/stream?url=".data) ++ yu) = some yu := by
  have hsplit : ("/stream?url=".data : Str) = ("/stream".data) ++ ('?' :: ("url=".data)) := by
    decide
  have h1 : base ++ ("/stream?url=".data) ++ yu
      = base ++ (("/stream".data) ++ ('?' :: (("url=".data) ++ yu))) := by
    rw [hsplit]
    simp [List.append_assoc]
  have h2 : afterQmark (base ++ (("/stream".data) ++ ('?' :: (("url=".data) ++ yu))))
      = some (("url=".data) ++ yu) := by
    rw [afterQmark_append_noq _ _ hb, afterQmark_append_noq _ _ (by decide),
        afterQmark_qmark]
  have h3 : hasChar (("url=".data) ++ yu) '&' = false := by
    rw [hasChar_append, ha, show hasChar (("url=".data)) '&' = false from by decide]
    rfl
  unfold extractUrlParam
  rw [h1, h2]
  show (lookupParam (splitAmp (("url=".data) ++ yu)) (("url").data)).map percentDecode = some yu
  rw [splitAmp_no_amp _ h3]
  simp [lookupParam, keyValOf, percentDecode_no_pct yu hp]

theorem channelsLoop_nonempty_url :
    ∀ (idx : Nat) (raw : List RawChannel) (c : Channel),
      c ∈ channelsLoop idx raw → c.youtube_url ≠ [] := by
  intro idx raw
  induction raw generalizing idx with
  | nil => intro c hc; simp [channelsLoop] at hc
  | cons ch t ih =>
    intro c hc
    simp only [channelsLoop] at hc
    by_cases h : (parseChannel idx ch).youtube_url = []
    · rw [if_pos h] at hc
      exact ih (idx + 1) c hc
    · rw [if_neg h] at hc
      rcases List.mem_cons.mp hc with h1 | h1
      · rw [h1]; exact h
      · exact ih (idx + 1) c h1

theorem pyContains_of_subscript (si v : JVal) (k : Str)
    (h : pySubscript si k = Except.ok v) : pyContains si k = Except.ok true := by
  cases si with
  | jobj fields =>
    simp only [pySubscript] at h
    cases hl : lookupFields fields k with
    | none => rw [hl] at h; simp at h
    | some w =>
      simp only [pyContains]
      rw [hl]
      rfl
  | jnull => simp [pySubscript] at h
  | jbool b => simp [pySubscript] at h
  | jnum n => simp [pySubscript] at h
  | jstr s => simp [pySubscript] at h
  | jarr vs => simp [pySubscript] at h

theorem fallbackTrigger_of_subscript (si v : JVal)
    (h : pySubscript si streamsKey = Except.ok v) :
    fallbackTrigger si = Except.ok (jfalsy v) := by
  unfold fallbackTrigger
  rw [pyContains_of_subscript si v streamsKey h]
  dsimp only
  rw [h]

theorem getBest_obj (si : JVal) (fields : List (Str × JVal))
    (h : pySubscript si streamsKey = Except.ok (JVal.jobj fields)) :
    getBest si = Except.ok (lookupFields fields bestKey) := by
  unfold getBest
  rw [h]
  rfl

theorem toUpperHexDigit_hex : ∀ m, m < 16 → isUpperHexDigitChar (toUpperHexDigit m) = true := by
  decide

theorem hexRevF_length : ∀ (k fuel n : Nat), n < 16 ^ k → (hexRevF fuel n).length ≤ k := by
  intro k
  induction k with
  | zero =>
    intro fuel n h
    interval_cases n
    cases fuel <;> simp [hexRevF]
  | succ k ih =>
    intro fuel n h
    match fuel, n with
    | _, 0 => simp [hexRevF]
    | 0, m + 1 => simp [hexRevF]
    | f + 1, m + 1 =>
      rw [hexRevF]
      have hdiv : (m + 1) / 16 < 16 ^ k := by
        rw [Nat.div_lt_iff_lt_mul (by norm_num : 0 < 16)]
        calc m + 1 < 16 ^ (k + 1) := h
        _ = 16 ^ k * 16 := by rw [pow_succ]
      have := ih f _ hdiv
      simp only [List.length_cons]
      omega

theorem hexRevF_chars : ∀ (fuel n : Nat), ∀ c ∈ hexRevF fuel n, isUpperHexDigitChar c = true := by
  intro fuel
  induction fuel with
  | zero => intro n c hc; cases n <;> simp [hexRevF] at hc
  | succ f ih =>
    intro n c hc
    cases n with
    | zero => simp [hexRevF] at hc
    | succ m =>
      rw [hexRevF] at hc
      rcases List.mem_cons.mp hc with h | h
      · rw [h]
        exact toUpperHexDigit_hex _ (Nat.mod_lt _ (by norm_num))
      · exact ih _ c h

theorem format08X_length (n : Nat) (h : n < 4294967296) : (format08X n).length = 8 := by
  have hl : (hexRevF n n).length ≤ 8 := hexRevF_length 8 n n (by norm_num at h ⊢; exact h)
  simp only [format08X, List.length_append, List.length_replicate, List.length_reverse]
  omega

theorem format08X_chars (n : Nat) : ∀ c ∈ format08X n, isUpperHexDigitChar c = true := by
  intro c hc
  rcases List.mem_append.mp hc with h | h
  · rw [List.eq_of_mem_replicate h]
    decide
  · exact hexRevF_chars n n c (List.mem_reverse.mp h)

theorem stream_handler_snd (w : StreamWorld) (raw : Str) (hu : percentDecode raw ≠ []) :
    (stream_handler w (some raw)).2 = (stream_try w (percentDecode raw)).2 := by
  unfold stream_handler
  dsimp only
  rw [if_neg hu]
  rcases h : stream_try w (percentDecode raw) with ⟨r | e, tr⟩ <;> rfl

theorem finishResp_snd (si : JVal) (url : Str) (tr : List Spawn) :
    (finishResp si url tr).2 = tr ∨ (finishResp si url tr).2 = tr ++ [Spawn.streamer url] := by
  unfold finishResp
  cases h : getBest si with
  | error e => exact Or.inl rfl
  | ok best =>
    cases best with
    | none => exact Or.inl rfl
    | some bv =>
      dsimp only
      by_cases hb : jfalsy bv = true
      · rw [if_pos hb]; exact Or.inl rfl
      · rw [if_neg hb]; exact Or.inr rfl

/-! ### Claim theorems -/

/-- C1, counterexample: on the upstream-EOF termination path with the helper
process already exited when the response closes (`process.poll()` non-None),
the session performs no cleanup action at all — in particular the
terminate/wait/kill/close contract does not run, refuting the claim that
every termination path runs the same cleanup contract. -/
theorem c1_cleanup_contract_cex :
    session_cleanup TermPath.eof true false = []
    ∧ full_cleanup_contract (session_cleanup TermPath.eof true false) true = false := by
  decide

/-- C1, amended: the full cleanup contract (terminate, bounded 5-second wait,
force-kill if still alive, close stdout/stderr) runs unconditionally on the
client-disconnect path, and on any termination path on which the helper
process is still alive when the response closes; it is not guaranteed on the
upstream-EOF or read-error paths when the process is already dead at response
close. -/
theorem c1_cleanup_contract_amended (p : TermPath) (e a : Bool)
    (h : a = true ∨ p = TermPath.clientDisconnect) :
    full_cleanup_contract (session_cleanup p e a) e = true := by
  rcases h with h | h
  · subst h; cases p <;> cases e <;> decide
  · subst h; cases e <;> cases a <;> decide

/-- C1, witness: the amended contract at the read-error path with a helper
still alive at response close. -/
theorem c1_cleanup_contract_witness :
    full_cleanup_contract (session_cleanup TermPath.readError false true) false = true :=
  c1_cleanup_contract_amended TermPath.readError false true (Or.inl rfl)

/-- C2: a `/stream` request with no `url` query parameter does not reach the
400 branch — `unquote(None)` raises `TypeError` before the check (line 435
precedes the `try:` block), so Flask produces its generic 500 error page and
not the claimed 400 JSON `{error}` body; no child process is spawned. -/
theorem c2_missing_url_crashes (w : StreamWorld) :
    stream_handler w none
      = (HttpResult.flaskError (PyExn.typeError (notIterableTypeMsg ("NoneType".data))), [])
    ∧ statusOf (stream_handler w none).1 = 500
    ∧ stream_handler w none
        ≠ (HttpResult.jsonResp 400 [(errKey, ("URL parameter is required").data)], []) := by
  refine ⟨rfl, rfl, by simp [stream_handler]⟩

/-- C3, counterexample: when the re-probe after the yt-dlp fallback exits
non-zero with empty stdout, the handler does not return the probe-stage error
with the tool's stderr as details; it raises inside `json.loads` and returns
a generic `{'error': str(e)}` 500 instead (the re-probe's exit code is never
checked). -/
theorem c3_probe_error_cex :
    cw3.probe2.exitcode ≠ 0
    ∧ (stream_handler cw3 (some u3)).1
        = HttpResult.jsonResp 500
            [(errKey, ("Expecting value: line 1 column 1 (char 0)").data)]
    ∧ (stream_handler cw3 (some u3)).1 ≠ probeFailResp cw3.probe2.stderr := by
  refine ⟨by decide, by decide, by decide⟩

/-- C3, amended: the non-zero-exit check applies to the initial probe only:
if the first streamlink probe exits non-zero, resolution fails with the
probe-stage 500 error whose `details` are the tool's stderr, and no further
child process is spawned.  The re-probe after the fallback is not
exit-checked. -/
theorem c3_probe_error_amended (w : StreamWorld) (raw : Str)
    (hu : percentDecode raw ≠ []) (h1 : w.probe1.exitcode ≠ 0) :
    stream_handler w (some raw)
      = (probeFailResp w.probe1.stderr, [Spawn.probe (percentDecode raw)]) := by
  unfold stream_handler
  dsimp only
  rw [if_neg hu]
  unfold stream_try
  rw [if_pos h1]

/-- C3, witness: the amended statement at a probe that exits 1. -/
theorem c3_probe_error_witness :
    stream_handler w3w (some u3w)
      = (probeFailResp w3w.probe1.stderr, [Spawn.probe (percentDecode u3w)]) :=
  c3_probe_error_amended w3w u3w (by decide) (by decide)

/-- C4: when the decoded source URL matches the video-hosting pattern and the
successful first probe reports zero usable variants (line 454's condition
evaluates true without raising), the yt-dlp fallback is spawned exactly once,
and whenever it succeeds (exit 0, i.e. it produced a URL) the first tool is
re-probed against its stripped stdout. -/
theorem c4_fallback_once (w : StreamWorld) (raw : Str) (si : JVal)
    (hu : percentDecode raw ≠ [])
    (h0 : w.probe1.exitcode = 0)
    (hj : w.probe1.stdoutJson = Except.ok si)
    (ht : fallbackTrigger si = Except.ok true)
    (hy : isYtUrl (percentDecode raw) = true) :
    ((stream_handler w (some raw)).2.filter isFallbackSpawn).length = 1
    ∧ (w.fallback.exitcode = 0 →
        ∃ rest, (stream_handler w (some raw)).2
          = Spawn.probe (percentDecode raw) :: Spawn.fallbackX (percentDecode raw)
              :: Spawn.probe (pyStrip w.fallback.stdoutText) :: rest) := by
  have hne : ¬ w.probe1.exitcode ≠ 0 := by simp [h0]
  rw [stream_handler_snd w raw hu]
  unfold stream_try
  rw [if_neg hne, hj]
  dsimp only
  rw [ht]
  dsimp only
  rw [if_pos (show (true && isYtUrl (percentDecode raw)) = true by rw [hy]; rfl)]
  by_cases hf : w.fallback.exitcode ≠ 0
  · rw [if_pos hf]
    refine ⟨by simp [List.filter, isFallbackSpawn], fun h0f => absurd h0f hf⟩
  · rw [if_neg hf]
    cases hp2 : w.probe2.stdoutJson with
    | error m =>
      exact ⟨by simp [List.filter, isFallbackSpawn], fun _ => ⟨[], rfl⟩⟩
    | ok si2 =>
      dsimp only
      rcases finishResp_snd si2 (pyStrip w.fallback.stdoutText)
          [Spawn.probe (percentDecode raw), Spawn.fallbackX (percentDecode raw),
           Spawn.probe (pyStrip w.fallback.stdoutText)] with h | h <;> rw [h]
      · exact ⟨by simp [List.filter, isFallbackSpawn], fun _ => ⟨[], rfl⟩⟩
      · exact ⟨by simp [List.filter, isFallbackSpawn],
          fun _ => ⟨[Spawn.streamer (pyStrip w.fallback.stdoutText)], rfl⟩⟩

/-- C4, witness: the full fallback chain on a concrete environment. -/
theorem c4_fallback_once_witness :
    ((stream_handler w4 (some u4)).2.filter isFallbackSpawn).length = 1
    ∧ (w4.fallback.exitcode = 0 →
        ∃ rest, (stream_handler w4 (some u4)).2
          = Spawn.probe (percentDecode u4) :: Spawn.fallbackX (percentDecode u4)
              :: Spawn.probe (pyStrip w4.fallback.stdoutText) :: rest) :=
  c4_fallback_once w4 u4 siEmptyStreams (by decide) (by decide) rfl rfl (by decide)

/-- C5, counterexample: a probe that exits 0 with output `{}` (no `streams`
key — zero stream variants) for a non-video-hosting URL does not produce the
claimed 404 no-stream error: line 470 raises `KeyError('streams')`, which
the outer handler turns into a generic 500 JSON error.  The fallback tool is
still never spawned. -/
theorem c5_no_stream_cex :
    stream_handler cw5 (some u5)
      = (HttpResult.jsonResp 500 [(errKey, exnMsg (PyExn.keyError streamsKey))],
         [Spawn.probe (percentDecode u5)])
    ∧ statusOf (stream_handler cw5 (some u5)).1 ≠ 404
    ∧ ((stream_handler cw5 (some u5)).2.filter isFallbackSpawn).length = 0 := by
  refine ⟨by decide, by decide, by decide⟩

/-- C5, amended: when the probe exits 0 and its output holds an empty object
under the `streams` key (zero stream variants) and the URL is not a
video-hosting URL, resolution fails with the 404 no-stream error and the
only child process spawned is the probe itself — the fallback tool is never
invoked.  Every other zero-variant shape instead raises — `KeyError` when
the `streams` key is absent, `AttributeError` when its value is a falsy
non-dict such as `[]`, `""`, `0`, `null` or `false` (line 470's `.get`) —
and yields a generic 500, still without invoking the fallback. -/
theorem c5_no_stream_amended (w : StreamWorld) (raw : Str) (si : JVal)
    (hu : percentDecode raw ≠ [])
    (h0 : w.probe1.exitcode = 0)
    (hj : w.probe1.stdoutJson = Except.ok si)
    (hs : pySubscript si streamsKey = Except.ok (JVal.jobj []))
    (hy : isYtUrl (percentDecode raw) = false) :
    stream_handler w (some raw) = (noStreamsResp, [Spawn.probe (percentDecode raw)]) := by
  have hne : ¬ w.probe1.exitcode ≠ 0 := by simp [h0]
  have htrig : fallbackTrigger si = Except.ok true :=
    fallbackTrigger_of_subscript si (JVal.jobj []) hs
  have hgb : getBest si = Except.ok none := getBest_obj si [] hs
  unfold stream_handler
  dsimp only
  rw [if_neg hu]
  unfold stream_try
  rw [if_neg hne, hj]
  dsimp only
  rw [htrig]
  dsimp only
  rw [if_neg (show ¬ ((true && isYtUrl (percentDecode raw)) = true) by simp [hy])]
  unfold finishResp
  rw [hgb]

/-- C5, witness: a probe reporting `{"streams": {}}` for a non-video-hosting
URL yields the 404 no-stream response with only the probe spawned. -/
theorem c5_no_stream_witness :
    stream_handler w5w (some u5) = (noStreamsResp, [Spawn.probe (percentDecode u5)]) :=
  c5_no_stream_amended w5w u5 siEmptyStreams
    (by decide) (by decide) rfl rfl (by decide)

/-- C6, counterexample: a channel whose source URL contains `&` — the URL is
embedded in the stream URL without percent-encoding, so query-parameter
extraction truncates at the `&` and does not reproduce the source URL. -/
theorem c6_roundtrip_cex :
    ((get_channels_from_xml [rc6]).map fun c => c.youtube_url)
      = [("https://www.youtube.com/watch?v=abc&t=5").data]
    ∧ ((hdhr_lineup base6 [rc6]).map fun e => extractUrlParam e.url)
        = [some (("https://www.youtube.com/watch?v=abc").data)]
    ∧ ((hdhr_lineup base6 [rc6]).map fun e => extractUrlParam e.url)
        ≠ [some (("https://www.youtube.com/watch?v=abc&t=5").data)] := by
  refine ⟨by decide, by decide, by decide⟩

/-- C6, amended: the lineup is exactly the catalog entries with a non-empty
(stripped) source URL, in catalog order; each entry's stream URL contains its
source URL verbatim; and the url-parameter round trip reproduces the source
URL provided it contains neither `&` nor `%` (the URL is embedded without
percent-encoding, so those characters break extraction). -/
theorem c6_lineup_roundtrip (base : Str) (raw : List RawChannel)
    (hb : hasChar base '?' = false) :
    hdhr_lineup base raw = (get_channels_from_xml raw).map (entryOf base)
    ∧ (∀ ch ∈ get_channels_from_xml raw, ch.youtube_url ≠ [])
    ∧ ∀ ch ∈ get_channels_from_xml raw,
        hasSub (entryOf base ch).url ch.youtube_url = true
        ∧ (hasChar ch.youtube_url '&' = false → hasChar ch.youtube_url '%' = false →
            extractUrlParam (entryOf base ch).url = some ch.youtube_url) := by
  refine ⟨rfl, ?_, ?_⟩
  · intro ch hch
    exact channelsLoop_nonempty_url 1 raw ch hch
  · intro ch hch
    constructor
    · show hasSub (base ++ ("/stream?url=".data) ++ ch.youtube_url) ch.youtube_url = true
      exact hasSub_append _ _ _ (hasSub_here _ _ (startsW_refl _))
    · intro ha hp
      show extractUrlParam (base ++ ("/stream?url=".data) ++ ch.youtube_url)
          = some ch.youtube_url
      exact extract_roundtrip base ch.youtube_url hb ha hp

/-- C6, witness: containment and round trip on a concrete catalog whose
source URL has no `&` and no `%`. -/
theorem c6_lineup_roundtrip_witness :
    hasSub (entryOf base6 ch6w).url ch6w.youtube_url = true
    ∧ extractUrlParam (entryOf base6 ch6w).url = some ch6w.youtube_url :=
  ⟨((c6_lineup_roundtrip base6 [rc6w] (by decide)).2.2 ch6w (by decide)).1,
   ((c6_lineup_roundtrip base6 [rc6w] (by decide)).2.2 ch6w (by decide)).2
     (by decide) (by decide)⟩

/-- C7: the `/discover.json` and `/lineup_status.json` bodies depend only on
the startup configuration — two calls against states with the same
configuration (regardless of the catalog contents) return byte-identical
bodies. -/
theorem c7_descriptor_idempotent (s1 s2 : ServerState) (h : s1.cfg = s2.cfg) :
    discoverCall s1 = discoverCall s2 ∧ lineupStatusCall s1 = lineupStatusCall s2 := by
  constructor
  · unfold discoverCall
    rw [h]
  · rfl

/-- C7, witness: two states sharing `cfg0` but with different catalogs. -/
theorem c7_descriptor_idempotent_witness :
    discoverCall st7a = discoverCall st7b ∧ lineupStatusCall st7a = lineupStatusCall st7b :=
  c7_descriptor_idempotent st7a st7b rfl

/-- C8: with no override the device ID is `format(mac & 0xFFFFFFFF, '08X')` —
a deterministic 8-character string of uppercase hexadecimal digits obtained
from the low 32 bits of the MAC address; a non-empty configured override is
used verbatim instead. -/
theorem c8_device_id (mac : Nat) (o : Str) :
    device_id_of none mac = format08X (mac % 4294967296)
    ∧ (device_id_of none mac).length = 8
    ∧ (∀ c ∈ device_id_of none mac, isUpperHexDigitChar c = true)
    ∧ (o ≠ [] → device_id_of (some o) mac = o) := by
  refine ⟨rfl, ?_, ?_, ?_⟩
  · exact format08X_length _ (Nat.mod_lt _ (by norm_num))
  · intro c hc
    exact format08X_chars _ c hc
  · intro h
    unfold device_id_of
    dsimp only
    rw [if_neg h]

/-- C8, witness: a 48-bit MAC masks to `FFFFFFFF`, and a non-empty override
wins. -/
theorem c8_device_id_witness :
    device_id_of (some (("ABCD1234").data)) 1099511627775 = ("ABCD1234").data
    ∧ (device_id_of none 1099511627775).length = 8
    ∧ isUpperHexDigitChar 'F' = true :=
  ⟨(c8_device_id 1099511627775 (("ABCD1234").data)).2.2.2 (by decide),
   (c8_device_id 1099511627775 (("ABCD1234").data)).2.1,
   (c8_device_id 1099511627775 (("ABCD1234").data)).2.2.1 'F' (by decide)⟩

/-- C9: the discovery listener replies with exactly one unicast datagram, to
the sender's address, precisely when the received datagram contains both
`M-SEARCH` and the exact device-type string (all other datagrams get no
reply), and the reply contains the `LOCATION: http://host:port/device.xml`
header and the `USN: uuid:deviceId::deviceType` header. -/
theorem c9_ssdp_listener (cfg : HdhrConfig) (data : Str) (addr : UdpAddr) :
    ssdp_listener_step cfg data addr
        = (if hasSub data ("M-SEARCH".data) && hasSub data ssdpDeviceType then
             [(addr, ssdp_response_msg cfg)]
           else [])
    ∧ hasSub (ssdp_response_msg cfg) (locationLine cfg) = true
    ∧ hasSub (ssdp_response_msg cfg) (usnLine cfg) = true := by
  refine ⟨rfl, ?_, ?_⟩
  · exact hasSub_append _ _ _ (hasSub_at_start _ _)
  · exact hasSub_append _ _ _ (hasSub_append _ _ _ (hasSub_append _ _ _
      (hasSub_at_start _ _)))

/-- C10: a lineup entry's optional `Station` key is present exactly when the
channel's logo URL is non-empty, and its value is the entry's guide number
(the channel-number field), not a station name. -/
theorem c10_station_field (base : Str) (raw : List RawChannel) (ch : Channel) :
    hdhr_lineup base raw = (get_channels_from_xml raw).map (entryOf base)
    ∧ (entryOf base ch).station
        = (if ch.tvg_logo = [] then none else some (entryOf base ch).guideNumber)
    ∧ ((entryOf base ch).station ≠ none ↔ ch.tvg_logo ≠ []) := by
  refine ⟨rfl, rfl, ?_⟩
  by_cases h : ch.tvg_logo = [] <;> simp [entryOf, h]

end YtHdhr
